import Mathlib

/-!
Shallow embedding of the symbolic-variable accessors of
`src/hint_processor/builtin_hint_processor/hint_utils.rs` together with the
segmented memory, register state and reference resolution they depend on.
The accessor functions are translated directly from the Rust source; the
machinery that the repository only declares (virtual machine, segmented
memory, reference resolver) is modelled from the specification, kept
consistent with the repository's own unit tests in `hint_utils.rs`.
-/

deriving instance DecidableEq for Except

namespace CairoRS

/-- Modelled from the spec: a `Felt` (crate `felt`, absent from the sources)
is an arbitrary-precision field element; only equality matters here. -/
abbrev Felt := Int

/-- Modelled from the spec: `Relocatable` (src/types/relocatable.rs, absent
from the sources): a segment-relative address (segment_index ≥ 0,
offset ≥ 0). -/
structure Relocatable where
  segment_index : Nat
  offset : Nat
deriving DecidableEq, Repr

/-- Modelled from the spec: `MaybeRelocatable`, the two-variant Cell Value:
a field-element integer or a segment pointer, exactly one at a time. -/
inductive MaybeRelocatable where
  | Int (v : Felt)
  | RelocatableValue (r : Relocatable)
deriving DecidableEq, Repr

/-- Modelled from the spec: `relocatable + integer → relocatable`; callers
below guard against a negative resulting offset before using it. -/
def Relocatable.add (r : Relocatable) (i : Int) : Relocatable :=
  ⟨r.segment_index, (Int.ofNat r.offset + i).toNat⟩

/-- Modelled from the spec: the segmented memory, a dense mapping from
segment index to a growable sequence of optional Cell Values. -/
structure Memory where
  data : List (List (Option MaybeRelocatable))
deriving DecidableEq, Repr

/-- Modelled from the spec: `Memory::get` returns nothing for an unset cell,
an out-of-range offset, or an unallocated segment. -/
def Memory.get (m : Memory) (addr : Relocatable) : Option MaybeRelocatable :=
  (m.data.getD addr.segment_index []).getD addr.offset none

/-- Modelled from the spec: extend a segment with holes up to offset `off`
and set the cell there, overwriting any prior content. -/
def setCell : List (Option MaybeRelocatable) → Nat → MaybeRelocatable →
    List (Option MaybeRelocatable)
  | [], 0, v => [some v]
  | [], n + 1, v => none :: setCell [] n v
  | _ :: t, 0, v => some v :: t
  | h :: t, n + 1, v => h :: setCell t n v

/-- Error type of the segmented memory, from
`src/vm/errors/memory_errors.rs`: `UnallocatedSegment(len, accessed)`. -/
inductive MemoryError where
  | UnallocatedSegment (len : Nat) (accessed : Nat)
deriving DecidableEq, Repr

/-- Modelled from the spec: `Memory::insert` fails with
`UnallocatedSegment(segment_count, address.segment_index)` when the target
segment does not exist, otherwise sets the cell. -/
def Memory.insert (m : Memory) (addr : Relocatable) (v : MaybeRelocatable) :
    Except MemoryError Memory :=
  if addr.segment_index < m.data.length then
    Except.ok ⟨m.data.set addr.segment_index
      (setCell (m.data.getD addr.segment_index []) addr.offset v)⟩
  else
    Except.error (MemoryError.UnallocatedSegment m.data.length addr.segment_index)

/-- Modelled from the spec: the `VirtualMachineError` variants the accessors
can produce (src/vm/errors/vm_errors.rs is absent from the sources); the
type-mismatch variants carry the address of the offending cell, as the
repository's unit tests `get_ptr_from_var_name_invalid` and
`get_integer_from_var_name_invalid` require. -/
inductive VirtualMachineError where
  | ExpectedInteger (a : MaybeRelocatable)
  | ExpectedRelocatable (a : MaybeRelocatable)
  | MemoryError (e : MemoryError)
deriving DecidableEq, Repr

/-- Modelled from the spec: the `HintError` variants used by the accessors
(src/vm/errors/hint_errors.rs is absent from the sources): `FailedToGetIds`
is the spec's ReferenceNotFound, and `Internal` wraps a lower-level VM error
unchanged. -/
inductive HintError where
  | FailedToGetIds
  | NoRegisterInReference
  | InvalidTrackingGroup
  | Internal (e : VirtualMachineError)
deriving DecidableEq, Repr

/-- Modelled from the spec: the two addressing registers, allocation (AP)
and frame (FP). -/
inductive Register where
  | AP
  | FP
deriving DecidableEq, Repr

/-- Modelled from the spec: one offset expression of a symbolic reference
(`OffsetValue` in src/serde/deserialize_program.rs, absent from the
sources): an immediate field element, a literal offset, or register plus
integer with an optional inner dereference. -/
inductive OffsetValue where
  | Immediate (v : Felt)
  | Value (v : Int)
  | Reference (reg : Register) (off : Int) (deref : Bool)
deriving DecidableEq, Repr

/-- Modelled from the spec: the compile-time allocation-register tracking
context (`ApTracking`) used to compute the drift correction. -/
structure ApTracking where
  group : Nat
  offset : Nat
deriving DecidableEq, Repr

/-- Modelled from the spec: `HintReference`
(src/hint_processor/hint_processor_definition.rs, absent from the sources):
primary and secondary offset expressions, the dereference flag, and the
reference's own tracking context. -/
structure HintReference where
  offset1 : OffsetValue
  offset2 : OffsetValue
  dereference : Bool
  ap_tracking_data : Option ApTracking
deriving DecidableEq, Repr

/-- Modelled from the spec: the register state supplied by the execution
loop. -/
structure RunContext where
  ap : Relocatable
  fp : Relocatable
deriving DecidableEq, Repr

/-- Modelled from the spec: the VM state visible to the accessors — the two
registers and the segmented memory. -/
structure VirtualMachine where
  run_context : RunContext
  memory : Memory
deriving DecidableEq, Repr

/-- Modelled from the spec: `VirtualMachine::get_ap`. -/
def VirtualMachine.get_ap (vm : VirtualMachine) : Relocatable :=
  vm.run_context.ap

/-- Modelled from the spec: `VirtualMachine::get_fp`. -/
def VirtualMachine.get_fp (vm : VirtualMachine) : Relocatable :=
  vm.run_context.fp

/-- Modelled from the spec: `VirtualMachine::get_relocatable` reads the cell
at `addr` and requires a Pointer; an unset cell or an Integer cell yields
`ExpectedRelocatable` carrying the ADDRESS of the cell, as the unit test
`get_ptr_from_var_name_invalid` requires. -/
def VirtualMachine.get_relocatable (vm : VirtualMachine) (addr : Relocatable) :
    Except VirtualMachineError Relocatable :=
  match vm.memory.get addr with
  | some (MaybeRelocatable.RelocatableValue r) => Except.ok r
  | _ => Except.error (VirtualMachineError.ExpectedRelocatable
      (MaybeRelocatable.RelocatableValue addr))

/-- Modelled from the spec: `VirtualMachine::get_integer` reads the cell at
`addr` and requires an Integer; an unset cell or a Pointer cell yields
`ExpectedInteger` carrying the ADDRESS of the cell, as the unit test
`get_integer_from_var_name_invalid` requires. -/
def VirtualMachine.get_integer (vm : VirtualMachine) (addr : Relocatable) :
    Except VirtualMachineError Felt :=
  match vm.memory.get addr with
  | some (MaybeRelocatable.Int i) => Except.ok i
  | _ => Except.error (VirtualMachineError.ExpectedInteger
      (MaybeRelocatable.RelocatableValue addr))

/-- Modelled from the spec: `VirtualMachine::insert_value` writes through to
the segmented memory, translating its error into a VM error; the mutated VM
is returned explicitly. -/
def VirtualMachine.insert_value (vm : VirtualMachine) (addr : Relocatable)
    (value : MaybeRelocatable) : Except VirtualMachineError VirtualMachine :=
  match vm.memory.insert addr value with
  | Except.ok m => Except.ok { vm with memory := m }
  | Except.error e => Except.error (VirtualMachineError.MemoryError e)

/-- Modelled from the spec: the drift correction — the gap between the
current tracking context and the reference's is subtracted from the
allocation register's value; contexts from different tracking groups are
incomparable, and a correction larger than the register's offset fails. -/
def apply_ap_tracking_correction (ap : Relocatable)
    (ref_ap_tracking hint_ap_tracking : ApTracking) :
    Except HintError Relocatable :=
  if ref_ap_tracking.group = hint_ap_tracking.group then
    let diff := hint_ap_tracking.offset - ref_ap_tracking.offset
    if diff ≤ ap.offset then
      Except.ok ⟨ap.segment_index, ap.offset - diff⟩
    else
      Except.error HintError.FailedToGetIds
  else
    Except.error HintError.InvalidTrackingGroup

/-- Modelled from the spec: evaluate one register-plus-integer offset
expression of a reference against the current registers, applying the drift
correction to the allocation register and, when the inner dereference flag
is set, reading the resulting address from memory. -/
def get_offset_value_reference (vm : VirtualMachine)
    (hint_reference : HintReference) (ap_tracking : ApTracking)
    (offset_value : OffsetValue) : Except HintError MaybeRelocatable :=
  match offset_value with
  | OffsetValue.Reference reg off deref =>
    let base_addr : Except HintError Relocatable :=
      match reg with
      | Register.FP => Except.ok vm.get_fp
      | Register.AP =>
        match hint_reference.ap_tracking_data with
        | some var_tracking =>
          apply_ap_tracking_correction vm.get_ap var_tracking ap_tracking
        | none => Except.error HintError.NoRegisterInReference
    match base_addr with
    | Except.error e => Except.error e
    | Except.ok base =>
      if off < 0 ∧ base.offset < off.natAbs then
        Except.error HintError.FailedToGetIds
      else if deref then
        match vm.memory.get (base.add off) with
        | some v => Except.ok v
        | none => Except.error HintError.FailedToGetIds
      else
        Except.ok (MaybeRelocatable.RelocatableValue (base.add off))
  | _ => Except.error HintError.FailedToGetIds

/-- Modelled from the spec: the Reference Resolver
(`compute_addr_from_reference` in src/hint_processor/hint_processor_utils.rs,
absent from the sources): evaluate the primary offset expression, which must
be register-relative and yield an address, then add the secondary offset —
either a further register expression whose value must be a non-negative
integer, or a literal added directly. -/
def compute_addr_from_reference (hint_reference : HintReference)
    (vm : VirtualMachine) (ap_tracking : ApTracking) :
    Except HintError Relocatable :=
  match hint_reference.offset1 with
  | OffsetValue.Reference _ _ _ =>
    match get_offset_value_reference vm hint_reference ap_tracking
        hint_reference.offset1 with
    | Except.error e => Except.error e
    | Except.ok (MaybeRelocatable.Int _) => Except.error HintError.FailedToGetIds
    | Except.ok (MaybeRelocatable.RelocatableValue offset1) =>
      match hint_reference.offset2 with
      | OffsetValue.Reference _ _ _ =>
        match get_offset_value_reference vm hint_reference ap_tracking
            hint_reference.offset2 with
        | Except.error e => Except.error e
        | Except.ok (MaybeRelocatable.Int i) =>
          if 0 ≤ i then Except.ok (offset1.add i)
          else Except.error HintError.FailedToGetIds
        | Except.ok (MaybeRelocatable.RelocatableValue _) =>
          Except.error HintError.FailedToGetIds
      | OffsetValue.Value v => Except.ok (offset1.add v)
      | OffsetValue.Immediate _ => Except.error HintError.FailedToGetIds
  | _ => Except.error HintError.FailedToGetIds

/-- Reference table: the source's `HashMap<String, HintReference>` embedded
as an association list with exact-name lookup. -/
abbrev IdsData := List (String × HintReference)

/-- Translation of `get_reference_from_var_name` from
src/hint_processor/builtin_hint_processor/hint_utils.rs: look the name up in
`ids_data`, failing with `FailedToGetIds` when absent. -/
def get_reference_from_var_name (var_name : String) (ids_data : IdsData) :
    Except HintError HintReference :=
  match ids_data.lookup var_name with
  | some r => Except.ok r
  | none => Except.error HintError.FailedToGetIds

/-- Translation of `get_relocatable_from_var_name` from hint_utils.rs: look
the name up (failing with `FailedToGetIds` when absent) and resolve the
reference to a concrete address. -/
def get_relocatable_from_var_name (var_name : String) (vm : VirtualMachine)
    (ids_data : IdsData) (ap_tracking : ApTracking) :
    Except HintError Relocatable :=
  match ids_data.lookup var_name with
  | none => Except.error HintError.FailedToGetIds
  | some r => compute_addr_from_reference r vm ap_tracking

/-- Translation of `get_address_from_var_name` from hint_utils.rs: the same
resolution, returned as a generic `MaybeRelocatable`. -/
def get_address_from_var_name (var_name : String) (vm : VirtualMachine)
    (ids_data : IdsData) (ap_tracking : ApTracking) :
    Except HintError MaybeRelocatable :=
  match ids_data.lookup var_name with
  | none => Except.error HintError.FailedToGetIds
  | some r =>
    match compute_addr_from_reference r vm ap_tracking with
    | Except.error e => Except.error e
    | Except.ok addr => Except.ok (MaybeRelocatable.RelocatableValue addr)

/-- Translation of `get_ptr_from_var_name` from hint_utils.rs: resolve the
variable's address, look the reference up a second time, and if its
dereference flag is set read the Pointer stored at the address, otherwise
return the address itself. -/
def get_ptr_from_var_name (var_name : String) (vm : VirtualMachine)
    (ids_data : IdsData) (ap_tracking : ApTracking) :
    Except HintError Relocatable :=
  match get_relocatable_from_var_name var_name vm ids_data ap_tracking with
  | Except.error e => Except.error e
  | Except.ok var_addr =>
    match ids_data.lookup var_name with
    | none => Except.error HintError.FailedToGetIds
    | some hint_reference =>
      if hint_reference.dereference then
        match vm.get_relocatable var_addr with
        | Except.ok value => Except.ok value
        | Except.error e => Except.error (HintError.Internal e)
      else
        Except.ok var_addr

/-- Modelled from the spec: `get_integer_from_reference`
(src/hint_processor/hint_processor_utils.rs, absent from the sources):
resolve the address and require an Integer cell there. -/
def get_integer_from_reference (vm : VirtualMachine)
    (hint_reference : HintReference) (ap_tracking : ApTracking) :
    Except HintError Felt :=
  match compute_addr_from_reference hint_reference vm ap_tracking with
  | Except.error e => Except.error e
  | Except.ok var_addr =>
    match vm.get_integer var_addr with
    | Except.ok i => Except.ok i
    | Except.error e => Except.error (HintError.Internal e)

/-- Modelled from the spec: `get_maybe_relocatable_from_reference`
(src/hint_processor/hint_processor_utils.rs, absent from the sources):
resolve the address and return the raw Cell Value, failing only when the
cell was never written, as the unit test
`get_maybe_relocatable_from_var_name_invalid` requires. -/
def get_maybe_relocatable_from_reference (vm : VirtualMachine)
    (hint_reference : HintReference) (ap_tracking : ApTracking) :
    Except HintError MaybeRelocatable :=
  match compute_addr_from_reference hint_reference vm ap_tracking with
  | Except.error e => Except.error e
  | Except.ok var_addr =>
    match vm.memory.get var_addr with
    | some v => Except.ok v
    | none => Except.error HintError.FailedToGetIds

/-- Translation of `get_integer_from_var_name` from hint_utils.rs. -/
def get_integer_from_var_name (var_name : String) (vm : VirtualMachine)
    (ids_data : IdsData) (ap_tracking : ApTracking) :
    Except HintError Felt :=
  match get_reference_from_var_name var_name ids_data with
  | Except.error e => Except.error e
  | Except.ok reference => get_integer_from_reference vm reference ap_tracking

/-- Translation of `get_maybe_relocatable_from_var_name` from
hint_utils.rs. -/
def get_maybe_relocatable_from_var_name (var_name : String)
    (vm : VirtualMachine) (ids_data : IdsData) (ap_tracking : ApTracking) :
    Except HintError MaybeRelocatable :=
  match get_reference_from_var_name var_name ids_data with
  | Except.error e => Except.error e
  | Except.ok reference =>
    get_maybe_relocatable_from_reference vm reference ap_tracking

/-- Translation of `insert_value_from_var_name` from hint_utils.rs: insert
`value` at the address of the given ids variable; a failing memory write is
wrapped as `Internal`. -/
def insert_value_from_var_name (var_name : String) (value : MaybeRelocatable)
    (vm : VirtualMachine) (ids_data : IdsData) (ap_tracking : ApTracking) :
    Except HintError VirtualMachine :=
  match get_relocatable_from_var_name var_name vm ids_data ap_tracking with
  | Except.error e => Except.error e
  | Except.ok var_address =>
    match vm.insert_value var_address value with
    | Except.ok vm2 => Except.ok vm2
    | Except.error e => Except.error (HintError.Internal e)

/-- Translation of `insert_value_into_ap` from hint_utils.rs: insert `value`
at the current allocation-register address. -/
def insert_value_into_ap (vm : VirtualMachine) (value : MaybeRelocatable) :
    Except HintError VirtualMachine :=
  match vm.insert_value vm.get_ap value with
  | Except.ok vm2 => Except.ok vm2
  | Except.error e => Except.error (HintError.Internal e)

/-- Register state of the repository's `vm!()` test macro: ap = fp = (1, 0). -/
def ctx10 : RunContext := ⟨⟨1, 0⟩, ⟨1, 0⟩⟩

/-- Default ap tracking, as built by `ApTracking::new()` in the tests. -/
def apt0 : ApTracking := ⟨0, 0⟩

/-- Reference built by `HintReference::new_simple(0)`: fp + 0, no inner
dereference, dereference flag set. -/
def refDeref : HintReference :=
  ⟨OffsetValue.Reference Register.FP 0 false, OffsetValue.Value 0, true, none⟩

/-- Reference like `new_simple(0)` but with the dereference flag unset. -/
def refNoDeref : HintReference :=
  ⟨OffsetValue.Reference Register.FP 0 false, OffsetValue.Value 0, false, none⟩

/-- Memory whose only written cell (1, 0) holds the pointer (5, 7). -/
def memPtr : Memory := ⟨[[], [some (MaybeRelocatable.RelocatableValue ⟨5, 7⟩)]]⟩

/-- Memory whose only written cell (1, 0) holds the pointer (0, 0), as the
`memory![((1, 0), (0, 0))]` macro of the unit tests builds. -/
def memPtr00 : Memory := ⟨[[], [some (MaybeRelocatable.RelocatableValue ⟨0, 0⟩)]]⟩

/-- Memory whose only written cell (1, 0) holds the integer 0. -/
def memInt : Memory := ⟨[[], [some (MaybeRelocatable.Int 0)]]⟩

/-- VM over `memPtr`. -/
def vmPtr : VirtualMachine := ⟨ctx10, memPtr⟩

/-- VM over `memPtr00`. -/
def vmPtr00 : VirtualMachine := ⟨ctx10, memPtr00⟩

/-- VM over `memInt`. -/
def vmInt : VirtualMachine := ⟨ctx10, memInt⟩

/-- VM with a fully empty memory (`Memory::new()`). -/
def vmEmpty : VirtualMachine := ⟨ctx10, ⟨[]⟩⟩

/-- Sanity check against the unit test `get_ptr_from_var_name_immediate_value`:
reference `HintReference::new(0, 0, true, false)` with `offset2 = Value(2)`
over `memory![((1, 0), (0, 0))]` yields (0, 2). -/
example :
    get_ptr_from_var_name "imm" vmPtr00
      [("imm", ⟨OffsetValue.Reference Register.FP 0 true, OffsetValue.Value 2,
        false, none⟩)] apt0 = Except.ok ⟨0, 2⟩ := by decide

/-- Sanity check against the unit test `get_ptr_from_var_name_valid`. -/
example :
    get_ptr_from_var_name "value" vmPtr00 [("value", refDeref)] apt0 =
      Except.ok ⟨0, 0⟩ := by decide

/-- Sanity check against the unit test `get_ptr_from_var_name_invalid`: the
cell holds the integer 0, so the error carries the address (1, 0). -/
example :
    get_ptr_from_var_name "value" vmInt [("value", refDeref)] apt0 =
      Except.error (HintError.Internal (VirtualMachineError.ExpectedRelocatable
        (MaybeRelocatable.RelocatableValue ⟨1, 0⟩))) := by decide

/-- Sanity check against the unit test `get_relocatable_from_var_name_valid`. -/
example :
    get_relocatable_from_var_name "value" vmPtr00 [("value", refDeref)] apt0 =
      Except.ok ⟨1, 0⟩ := by decide

/-- Sanity check against the unit test `get_relocatable_from_var_name_invalid`:
`new_simple(-8)` over fp = (1, 0) would give a negative offset. -/
example :
    get_relocatable_from_var_name "value" vmEmpty
      [("value", ⟨OffsetValue.Reference Register.FP (-8) false,
        OffsetValue.Value 0, true, none⟩)] apt0 =
      Except.error HintError.FailedToGetIds := by decide

/-- Sanity check against the unit test `get_integer_from_var_name_valid`. -/
example :
    get_integer_from_var_name "value" ⟨ctx10, ⟨[[], [some (MaybeRelocatable.Int 1)]]⟩⟩
      [("value", refDeref)] apt0 = Except.ok 1 := by decide

/-- Sanity check against the unit test `get_integer_from_var_name_invalid`:
the cell holds the pointer (0, 0), and the error carries the address (1, 0). -/
example :
    get_integer_from_var_name "value" vmPtr00 [("value", refDeref)] apt0 =
      Except.error (HintError.Internal (VirtualMachineError.ExpectedInteger
        (MaybeRelocatable.RelocatableValue ⟨1, 0⟩))) := by decide

/-- Sanity check against the unit test
`get_maybe_relocatable_from_var_name_valid`. -/
example :
    get_maybe_relocatable_from_var_name "value" vmPtr00 [("value", refDeref)]
      apt0 = Except.ok (MaybeRelocatable.RelocatableValue ⟨0, 0⟩) := by decide

/-- Sanity check against the unit test
`get_maybe_relocatable_from_var_name_invalid`: an empty memory yields
`FailedToGetIds`. -/
example :
    get_maybe_relocatable_from_var_name "value" vmEmpty [("value", refDeref)]
      apt0 = Except.error HintError.FailedToGetIds := by decide

/-- Setting a cell via `setCell` and reading the same offset back yields the
written value. -/
theorem getD_setCell (off : Nat) (seg : List (Option MaybeRelocatable))
    (v : MaybeRelocatable) : (setCell seg off v).getD off none = some v := by
  induction off generalizing seg with
  | zero => cases seg <;> simp [setCell]
  | succ n ih => cases seg <;> simp [setCell] <;> simpa using ih _

/-- Reading back an in-bounds index just set in a list gives the new value. -/
theorem getD_set_self {α : Type} (l : List α) (i : Nat) (a d : α)
    (h : i < l.length) : (l.set i a).getD i d = a := by
  induction l generalizing i with
  | nil => simp at h
  | cons x t ih =>
    cases i with
    | zero => simp
    | succ n =>
      simp only [List.set_cons_succ, List.getD_cons_succ]
      exact ih n (by simpa using h)

/-- A successful `Memory.insert` stores exactly the written value at the
written address. -/
theorem Memory.get_insert_self (m : Memory) (addr : Relocatable)
    (v : MaybeRelocatable) (m2 : Memory)
    (h : m.insert addr v = Except.ok m2) : m2.get addr = some v := by
  unfold Memory.insert at h
  by_cases hlt : addr.segment_index < m.data.length
  · rw [if_pos hlt] at h
    injection h with h2
    subst h2
    unfold Memory.get
    rw [getD_set_self _ _ _ _ hlt]
    exact getD_setCell _ _ _
  · rw [if_neg hlt] at h
    exact absurd h (by simp)

/-- C1: with the variable present in the table, if its reference has the
dereference flag set and the resolved address holds a Pointer cell `p2`,
`get_ptr_from_var_name` returns `p2`; if the flag is unset it returns the
resolved address itself, regardless of memory contents at that address. -/
theorem claim_C1 (vm : VirtualMachine) (ids_data : IdsData)
    (ap_tracking : ApTracking) (var_name : String) (ref : HintReference)
    (addr p2 : Relocatable)
    (href : ids_data.lookup var_name = some ref)
    (haddr : get_relocatable_from_var_name var_name vm ids_data ap_tracking =
      Except.ok addr) :
    (ref.dereference = true →
      vm.memory.get addr = some (MaybeRelocatable.RelocatableValue p2) →
      get_ptr_from_var_name var_name vm ids_data ap_tracking =
        Except.ok p2) ∧
    (ref.dereference = false →
      get_ptr_from_var_name var_name vm ids_data ap_tracking =
        Except.ok addr) := by
  constructor
  · intro hd hmem
    simp [get_ptr_from_var_name, haddr, href, hd,
      VirtualMachine.get_relocatable, hmem]
  · intro hd
    simp [get_ptr_from_var_name, haddr, href, hd]

/-- Witness for C1: at the concrete state `vmPtr`, the dereferencing branch
returns the stored pointer (5, 7) and not the resolved address (1, 0). -/
theorem claim_C1_witness :
    get_ptr_from_var_name "x" vmPtr [("x", refDeref)] apt0 =
      Except.ok ⟨5, 7⟩ :=
  (claim_C1 vmPtr [("x", refDeref)] apt0 "x" refDeref ⟨1, 0⟩ ⟨5, 7⟩
    (by decide) (by decide)).1 (by decide) (by decide)

/-- C2 counterexample: for the reference `refDeref`, whose dereference flag
IS set, the computed address is (1, 0) but `get_ptr_from_var_name` reads
memory there and returns the stored pointer (5, 7) — not the computed
address as the claim states. -/
theorem claim_C2_counterexample :
    refDeref.dereference = true ∧
    get_relocatable_from_var_name "x" vmPtr [("x", refDeref)] apt0 =
      Except.ok ⟨1, 0⟩ ∧
    get_ptr_from_var_name "x" vmPtr [("x", refDeref)] apt0 =
      Except.ok ⟨5, 7⟩ ∧
    (⟨5, 7⟩ : Relocatable) ≠ ⟨1, 0⟩ := by decide

/-- C2 amended: `get_ptr_from_var_name` with the dereference flag SET reads
memory at the computed address and requires a Pointer cell there, failing
with the wrapped type-mismatch error otherwise; with the flag UNSET it
returns the computed address as-is without consulting memory. -/
theorem claim_C2_amended (vm : VirtualMachine) (ids_data : IdsData)
    (ap_tracking : ApTracking) (var_name : String) (ref : HintReference)
    (addr : Relocatable)
    (href : ids_data.lookup var_name = some ref)
    (haddr : get_relocatable_from_var_name var_name vm ids_data ap_tracking =
      Except.ok addr) :
    (ref.dereference = true →
      get_ptr_from_var_name var_name vm ids_data ap_tracking =
        (vm.get_relocatable addr).mapError HintError.Internal) ∧
    (ref.dereference = false →
      get_ptr_from_var_name var_name vm ids_data ap_tracking =
        Except.ok addr) := by
  constructor
  · intro hd
    simp only [get_ptr_from_var_name, haddr, href, hd, if_true]
    cases vm.get_relocatable addr <;> simp [Except.mapError]
  · intro hd
    simp [get_ptr_from_var_name, haddr, href, hd]

/-- Witness for the amended C2: at `vmInt` the cell holds an Integer, so the
dereferencing read fails exactly as `get_relocatable` does. -/
theorem claim_C2_witness :
    get_ptr_from_var_name "x" vmInt [("x", refDeref)] apt0 =
      (vmInt.get_relocatable ⟨1, 0⟩).mapError HintError.Internal :=
  (claim_C2_amended vmInt [("x", refDeref)] apt0 "x" refDeref ⟨1, 0⟩
    (by decide) (by decide)).1 (by decide)

/-- C3: every accessor returns `FailedToGetIds` when the variable name is
absent from the reference table, whatever the VM, memory and register
state. -/
theorem claim_C3 (vm : VirtualMachine) (ids_data : IdsData)
    (ap_tracking : ApTracking) (var_name : String) (value : MaybeRelocatable)
    (habs : ids_data.lookup var_name = none) :
    get_relocatable_from_var_name var_name vm ids_data ap_tracking =
      Except.error HintError.FailedToGetIds ∧
    get_address_from_var_name var_name vm ids_data ap_tracking =
      Except.error HintError.FailedToGetIds ∧
    get_ptr_from_var_name var_name vm ids_data ap_tracking =
      Except.error HintError.FailedToGetIds ∧
    get_integer_from_var_name var_name vm ids_data ap_tracking =
      Except.error HintError.FailedToGetIds ∧
    get_maybe_relocatable_from_var_name var_name vm ids_data ap_tracking =
      Except.error HintError.FailedToGetIds ∧
    insert_value_from_var_name var_name value vm ids_data ap_tracking =
      Except.error HintError.FailedToGetIds := by
  refine ⟨?_, ?_, ?_, ?_, ?_, ?_⟩ <;>
    simp [get_relocatable_from_var_name, get_address_from_var_name,
      get_ptr_from_var_name, get_integer_from_var_name,
      get_maybe_relocatable_from_var_name, insert_value_from_var_name,
      get_reference_from_var_name, habs]

/-- Witness for C3: the empty reference table rejects the name "x" in all
six accessors over the concrete state `vmPtr`. -/
theorem claim_C3_witness :
    get_relocatable_from_var_name "x" vmPtr [] apt0 =
      Except.error HintError.FailedToGetIds ∧
    get_address_from_var_name "x" vmPtr [] apt0 =
      Except.error HintError.FailedToGetIds ∧
    get_ptr_from_var_name "x" vmPtr [] apt0 =
      Except.error HintError.FailedToGetIds ∧
    get_integer_from_var_name "x" vmPtr [] apt0 =
      Except.error HintError.FailedToGetIds ∧
    get_maybe_relocatable_from_var_name "x" vmPtr [] apt0 =
      Except.error HintError.FailedToGetIds ∧
    insert_value_from_var_name "x" (MaybeRelocatable.Int 0) vmPtr [] apt0 =
      Except.error HintError.FailedToGetIds :=
  claim_C3 vmPtr [] apt0 "x" (MaybeRelocatable.Int 0) (by decide)

/-- C4 counterexample: for the non-dereferencing reference `refNoDeref`
whose resolved cell holds Integer 0, `get_ptr_from_var_name` SUCCEEDS with
the resolved address (1, 0) instead of failing with an ExpectedPointer-style
error carrying Integer 0. -/
theorem claim_C4_counterexample :
    refNoDeref.dereference = false ∧
    vmInt.memory.get ⟨1, 0⟩ = some (MaybeRelocatable.Int 0) ∧
    get_ptr_from_var_name "x" vmInt [("x", refNoDeref)] apt0 =
      Except.ok ⟨1, 0⟩ := by decide

/-- C4 amended: it is the DEREFERENCING reference whose resolved cell holds
Integer `x` that makes `get_ptr_from_var_name` fail, and the error is
`Internal (ExpectedRelocatable address)` carrying the resolved address
rather than the stored integer; a non-dereferencing reference returns the
address without reading memory. -/
theorem claim_C4_amended (vm : VirtualMachine) (ids_data : IdsData)
    (ap_tracking : ApTracking) (var_name : String) (ref : HintReference)
    (addr : Relocatable)
    (href : ids_data.lookup var_name = some ref)
    (haddr : get_relocatable_from_var_name var_name vm ids_data ap_tracking =
      Except.ok addr)
    (hd : ref.dereference = true) (x : Felt)
    (hmem : vm.memory.get addr = some (MaybeRelocatable.Int x)) :
    get_ptr_from_var_name var_name vm ids_data ap_tracking =
      Except.error (HintError.Internal
        (VirtualMachineError.ExpectedRelocatable
          (MaybeRelocatable.RelocatableValue addr))) := by
  simp [get_ptr_from_var_name, haddr, href, hd,
    VirtualMachine.get_relocatable, hmem]

/-- Witness for the amended C4 at the concrete state `vmInt`. -/
theorem claim_C4_witness :
    get_ptr_from_var_name "x" vmInt [("x", refDeref)] apt0 =
      Except.error (HintError.Internal
        (VirtualMachineError.ExpectedRelocatable
          (MaybeRelocatable.RelocatableValue ⟨1, 0⟩))) :=
  claim_C4_amended vmInt [("x", refDeref)] apt0 "x" refDeref ⟨1, 0⟩
    (by decide) (by decide) (by decide) 0 (by decide)

/-- C5 counterexample: with the resolved cell at (1, 0) holding the pointer
(0, 0), `get_integer_from_var_name` fails with
`Internal (ExpectedInteger ...)` carrying the ADDRESS (1, 0) of the cell,
not the stored pointer (0, 0) that the claim requires. -/
theorem claim_C5_counterexample :
    vmPtr00.memory.get ⟨1, 0⟩ =
      some (MaybeRelocatable.RelocatableValue ⟨0, 0⟩) ∧
    get_integer_from_var_name "x" vmPtr00 [("x", refDeref)] apt0 =
      Except.error (HintError.Internal (VirtualMachineError.ExpectedInteger
        (MaybeRelocatable.RelocatableValue ⟨1, 0⟩))) ∧
    (MaybeRelocatable.RelocatableValue ⟨1, 0⟩ : MaybeRelocatable) ≠
      MaybeRelocatable.RelocatableValue ⟨0, 0⟩ := by decide

/-- C5 amended: `get_integer_from_var_name` resolves the address and reads
memory: an Integer cell yields the stored value, while a Pointer cell fails
with `Internal (ExpectedInteger address)` carrying the address of the cell
(not the stored pointer). -/
theorem claim_C5_amended (vm : VirtualMachine) (ids_data : IdsData)
    (ap_tracking : ApTracking) (var_name : String) (ref : HintReference)
    (addr : Relocatable)
    (href : ids_data.lookup var_name = some ref)
    (haddr : compute_addr_from_reference ref vm ap_tracking =
      Except.ok addr) :
    (∀ x : Felt, vm.memory.get addr = some (MaybeRelocatable.Int x) →
      get_integer_from_var_name var_name vm ids_data ap_tracking =
        Except.ok x) ∧
    (∀ p : Relocatable,
      vm.memory.get addr = some (MaybeRelocatable.RelocatableValue p) →
      get_integer_from_var_name var_name vm ids_data ap_tracking =
        Except.error (HintError.Internal (VirtualMachineError.ExpectedInteger
          (MaybeRelocatable.RelocatableValue addr)))) := by
  constructor
  · intro x hmem
    simp [get_integer_from_var_name, get_reference_from_var_name, href,
      get_integer_from_reference, haddr, VirtualMachine.get_integer, hmem]
  · intro p hmem
    simp [get_integer_from_var_name, get_reference_from_var_name, href,
      get_integer_from_reference, haddr, VirtualMachine.get_integer, hmem]

/-- Witness for the amended C5 at the concrete state `vmPtr00`. -/
theorem claim_C5_witness :
    get_integer_from_var_name "x" vmPtr00 [("x", refDeref)] apt0 =
      Except.error (HintError.Internal (VirtualMachineError.ExpectedInteger
        (MaybeRelocatable.RelocatableValue ⟨1, 0⟩))) :=
  (claim_C5_amended vmPtr00 [("x", refDeref)] apt0 "x" refDeref ⟨1, 0⟩
    (by decide) (by decide)).2 ⟨0, 0⟩ (by decide)

/-- C6: on every input, `get_address_from_var_name` is exactly
`get_relocatable_from_var_name` with the result embedded into
`MaybeRelocatable`: both succeed with the same address or fail with the
same error. -/
theorem claim_C6 (vm : VirtualMachine) (ids_data : IdsData)
    (ap_tracking : ApTracking) (var_name : String) :
    get_address_from_var_name var_name vm ids_data ap_tracking =
      (get_relocatable_from_var_name var_name vm ids_data ap_tracking).map
        MaybeRelocatable.RelocatableValue := by
  unfold get_address_from_var_name get_relocatable_from_var_name
  cases ids_data.lookup var_name with
  | none => rfl
  | some r =>
    cases h : compute_addr_from_reference r vm ap_tracking <;>
      simp [h, Except.map]

/-- C7: `insert_value_from_var_name` writes the value at the variable's
resolved address: on success the new memory holds the value there, and a
failing memory write is returned as `Internal` with the inner memory error
unchanged. -/
theorem claim_C7 (vm : VirtualMachine) (ids_data : IdsData)
    (ap_tracking : ApTracking) (var_name : String) (value : MaybeRelocatable)
    (addr : Relocatable)
    (haddr : get_relocatable_from_var_name var_name vm ids_data ap_tracking =
      Except.ok addr) :
    (∀ m2 : Memory, vm.memory.insert addr value = Except.ok m2 →
      insert_value_from_var_name var_name value vm ids_data ap_tracking =
        Except.ok { vm with memory := m2 } ∧
      m2.get addr = some value) ∧
    (∀ e : MemoryError, vm.memory.insert addr value = Except.error e →
      insert_value_from_var_name var_name value vm ids_data ap_tracking =
        Except.error (HintError.Internal
          (VirtualMachineError.MemoryError e))) := by
  constructor
  · intro m2 hins
    exact ⟨by simp [insert_value_from_var_name, haddr,
        VirtualMachine.insert_value, hins],
      Memory.get_insert_self _ _ _ _ hins⟩
  · intro e hins
    simp [insert_value_from_var_name, haddr, VirtualMachine.insert_value,
      hins]

/-- Witness for C7: writing Integer 5 to "x" in the concrete state `vmInt`
lands at (1, 0) and the value can be read back. -/
theorem claim_C7_witness :
    insert_value_from_var_name "x" (MaybeRelocatable.Int 5) vmInt
      [("x", refNoDeref)] apt0 =
      Except.ok ⟨ctx10, ⟨[[], [some (MaybeRelocatable.Int 5)]]⟩⟩ ∧
    Memory.get ⟨[[], [some (MaybeRelocatable.Int 5)]]⟩ ⟨1, 0⟩ =
      some (MaybeRelocatable.Int 5) :=
  (claim_C7 vmInt [("x", refNoDeref)] apt0 "x" (MaybeRelocatable.Int 5)
    ⟨1, 0⟩ (by decide)).1 ⟨[[], [some (MaybeRelocatable.Int 5)]]⟩ (by decide)

/-- C8: `insert_value_into_ap` writes at exactly the current
allocation-register address: it succeeds (with the value stored at ap) iff
the direct memory insert at `vm.get_ap` succeeds, and a failing insert is
returned as `Internal` around the unchanged memory error. -/
theorem claim_C8 (vm : VirtualMachine) (value : MaybeRelocatable) :
    (∀ m2 : Memory, vm.memory.insert vm.get_ap value = Except.ok m2 →
      insert_value_into_ap vm value = Except.ok { vm with memory := m2 } ∧
      m2.get vm.get_ap = some value) ∧
    (∀ e : MemoryError, vm.memory.insert vm.get_ap value = Except.error e →
      insert_value_into_ap vm value = Except.error (HintError.Internal
        (VirtualMachineError.MemoryError e))) ∧
    ((∃ vm2, insert_value_into_ap vm value = Except.ok vm2) ↔
      (∃ m2, vm.memory.insert vm.get_ap value = Except.ok m2)) := by
  refine ⟨?_, ?_, ?_⟩
  · intro m2 hins
    exact ⟨by simp [insert_value_into_ap, VirtualMachine.insert_value, hins],
      Memory.get_insert_self _ _ _ _ hins⟩
  · intro e hins
    simp [insert_value_into_ap, VirtualMachine.insert_value, hins]
  · cases hins : vm.memory.insert vm.get_ap value with
    | ok m =>
      constructor
      · intro _
        exact ⟨m, rfl⟩
      · intro _
        exact ⟨{ vm with memory := m },
          by simp [insert_value_into_ap, VirtualMachine.insert_value, hins]⟩
    | error e =>
      have h1 : insert_value_into_ap vm value = Except.error
          (HintError.Internal (VirtualMachineError.MemoryError e)) := by
        simp [insert_value_into_ap, VirtualMachine.insert_value, hins]
      constructor
      · rintro ⟨vm2, h⟩
        rw [h1] at h
        exact absurd h (by simp)
      · rintro ⟨m2, h⟩
        exact absurd h (by simp)

/-- Witness for C8: inserting Integer 9 at ap = (1, 0) in the concrete
state `vmInt` succeeds and stores the value there. -/
theorem claim_C8_witness :
    insert_value_into_ap vmInt (MaybeRelocatable.Int 9) =
      Except.ok ⟨ctx10, ⟨[[], [some (MaybeRelocatable.Int 9)]]⟩⟩ ∧
    Memory.get ⟨[[], [some (MaybeRelocatable.Int 9)]]⟩ ⟨1, 0⟩ =
      some (MaybeRelocatable.Int 9) :=
  (claim_C8 vmInt (MaybeRelocatable.Int 9)).1
    ⟨[[], [some (MaybeRelocatable.Int 9)]]⟩ (by decide)

/-- Reference for the R1 scenario read literally: primary offset fp + 0
without inner dereference, secondary offset literal 2, and the reference's
dereference flag set to true. -/
def refR1outer : HintReference :=
  ⟨OffsetValue.Reference Register.FP 0 false, OffsetValue.Value 2, true, none⟩

/-- Reference for the R1 scenario as the repository's unit test
`get_ptr_from_var_name_immediate_value` builds it
(`HintReference::new(0, 0, true, false)` with `offset2 = Value(2)`): the
dereference sits on the primary offset and the reference's own flag is
false. -/
def refR1inner : HintReference :=
  ⟨OffsetValue.Reference Register.FP 0 true, OffsetValue.Value 2, false, none⟩

/-- C9 counterexample: taking "dereference = true" as the reference's own
dereference flag, the computed address is (1, 2) = fp + 0 + 2, the
frame-register-derived address (1, 0) holds Pointer(0, 0), and
`get_ptr_from_var_name` fails reading the unset cell (1, 2) instead of
returning (0, 2). -/
theorem claim_C9_counterexample :
    refR1outer.dereference = true ∧
    vmPtr00.memory.get ⟨1, 0⟩ =
      some (MaybeRelocatable.RelocatableValue ⟨0, 0⟩) ∧
    get_ptr_from_var_name "imm" vmPtr00 [("imm", refR1outer)] apt0 =
      Except.error (HintError.Internal
        (VirtualMachineError.ExpectedRelocatable
          (MaybeRelocatable.RelocatableValue ⟨1, 2⟩))) ∧
    get_ptr_from_var_name "imm" vmPtr00 [("imm", refR1outer)] apt0 ≠
      Except.ok ⟨0, 2⟩ := by decide

/-- C9 amended: in the R1 scenario the dereference is the INNER dereference
on the primary offset, and the reference's own dereference flag is false:
with fp = (1, 0) and memory at the frame-register-derived address (1, 0)
holding Pointer(0, 0), `get_ptr_from_var_name` on {fp + 0 dereferenced,
secondary offset literal 2, dereference = false} returns (0, 2). -/
theorem claim_C9_amended :
    vmPtr00.memory.get ⟨1, 0⟩ =
      some (MaybeRelocatable.RelocatableValue ⟨0, 0⟩) ∧
    get_ptr_from_var_name "imm" vmPtr00 [("imm", refR1inner)] apt0 =
      Except.ok ⟨0, 2⟩ := by decide

/-- C10: whenever the initial address resolution of `get_ptr_from_var_name`
succeeds, the name is necessarily present in the table, so the second lookup
succeeds as well and the `FailedToGetIds` branch that follows a successful
resolution is unreachable: the overall result is never that error. -/
theorem claim_C10 (vm : VirtualMachine) (ids_data : IdsData)
    (ap_tracking : ApTracking) (var_name : String) (addr : Relocatable)
    (haddr : get_relocatable_from_var_name var_name vm ids_data ap_tracking =
      Except.ok addr) :
    (∃ ref : HintReference, ids_data.lookup var_name = some ref) ∧
    get_ptr_from_var_name var_name vm ids_data ap_tracking ≠
      Except.error HintError.FailedToGetIds := by
  have hsome : ∃ ref : HintReference, ids_data.lookup var_name = some ref := by
    unfold get_relocatable_from_var_name at haddr
    cases h : ids_data.lookup var_name with
    | none =>
      rw [h] at haddr
      exact absurd haddr (by simp)
    | some r => exact ⟨r, rfl⟩
  obtain ⟨ref, href⟩ := hsome
  refine ⟨⟨ref, href⟩, ?_⟩
  simp only [get_ptr_from_var_name, haddr, href]
  by_cases hd : ref.dereference
  · simp only [hd, if_true]
    cases vm.get_relocatable addr <;> simp
  · simp [hd]

/-- Witness for C10: at the concrete state `vmPtr`, the successful
resolution at (1, 0) guarantees the second lookup succeeds and the overall
result is not `FailedToGetIds`. -/
theorem claim_C10_witness :
    (∃ ref : HintReference,
      List.lookup "x" [("x", refDeref)] = some ref) ∧
    get_ptr_from_var_name "x" vmPtr [("x", refDeref)] apt0 ≠
      Except.error HintError.FailedToGetIds :=
  claim_C10 vmPtr [("x", refDeref)] apt0 "x" ⟨1, 0⟩ (by decide)

end CairoRS
